import Mathlib

/-!
Verification of the atlasride-backend movement engine and route acquisition
layer.  The Python source (app/services/simulation.py, app/services/osrm_service.py,
app/models.py) is shallowly embedded: floating-point arithmetic is modelled over
the real numbers, fallible operations return `Except`/`Option`, and the
database / network side effects are passed in explicitly as values
(`TickEnv` carries the record-store lookup results one tick consumes,
`Option TierResponse` carries a routing tier's parsed HTTP response, `none`
standing for a network failure or non-success status).
-/

namespace AtlasRide

/-- Python `math.radians`: degrees to radians. -/
noncomputable def radians (x : ℝ) : ℝ := x * Real.pi / 180

/-- Python `math.degrees`: radians to degrees. -/
noncomputable def degrees (x : ℝ) : ℝ := x * 180 / Real.pi

/-- Python `math.atan2 y x` on real (non-NaN) arguments: the angle of the
vector `(x, y)` in `(-pi, pi]`, with `atan2 0 0 = 0` as CPython returns. -/
noncomputable def atan2 (y x : ℝ) : ℝ :=
  if 0 < x then Real.arctan (y / x)
  else if x < 0 then
    (if 0 ≤ y then Real.arctan (y / x) + Real.pi else Real.arctan (y / x) - Real.pi)
  else if 0 < y then Real.pi / 2
  else if y < 0 then -(Real.pi / 2)
  else 0

/-- Python `x % y` on floats (for `y > 0`): `x - y * floor (x / y)`. -/
noncomputable def pymod (x y : ℝ) : ℝ := x - y * (⌊x / y⌋ : ℝ)

/-- `OSRMService.calculate_bearing` (osrm_service.py lines 128-151): initial
bearing from `(lng1, lat1)` to `(lng2, lat2)`, normalized into `[0, 360)`. -/
noncomputable def calculate_bearing (lng1 lat1 lng2 lat2 : ℝ) : ℝ :=
  let lat1_rad := radians lat1
  let lat2_rad := radians lat2
  let lng_diff := radians (lng2 - lng1)
  let x := Real.sin lng_diff * Real.cos lat2_rad
  let y := Real.cos lat1_rad * Real.sin lat2_rad -
    Real.sin lat1_rad * Real.cos lat2_rad * Real.cos lng_diff
  let bearing := atan2 x y
  let bearing_deg := degrees bearing
  pymod (bearing_deg + 360) 360

/-- `SimulationEngine._calculate_distance` (simulation.py lines 178-194):
haversine distance in meters, Earth radius 6,371,000 m.  Note the argument
order of the source: latitudes first. -/
noncomputable def calculate_distance (lat1 lng1 lat2 lng2 : ℝ) : ℝ :=
  let R : ℝ := 6371000
  let phi1 := radians lat1
  let phi2 := radians lat2
  let delta_phi := radians (lat2 - lat1)
  let delta_lambda := radians (lng2 - lng1)
  let a := Real.sin (delta_phi / 2) ^ 2 +
    Real.cos phi1 * Real.cos phi2 * Real.sin (delta_lambda / 2) ^ 2
  let c := 2 * atan2 (Real.sqrt a) (Real.sqrt (1 - a))
  R * c

/-- A `[lng, lat]` coordinate pair (GeoJSON order), as used throughout the
source. -/
structure Coord where
  lng : ℝ
  lat : ℝ

/-- GeoJSON geometry object: the source only ever reads its `coordinates`
key and builds a `LineString` in the synthetic tier. -/
structure OSRMGeometry where
  type : String
  coordinates : List Coord

/-- One entry of the provider's `routes` list, with the fields the source
reads (`geometry`, `distance`, `duration`). -/
structure OSRMRouteData where
  geometry : OSRMGeometry
  distance : ℝ
  duration : ℝ

/-- `OSRMRoute` (models.py lines 83-88). -/
structure OSRMRoute where
  geometry : OSRMGeometry
  distance : ℝ
  duration : ℝ
  coordinates : List Coord

/-- A routing tier's parsed JSON body (`code` plus `routes`); a whole-request
failure (network error, non-2xx status, unparsable body) is modelled as
`none` at the use sites. -/
structure TierResponse where
  code : String
  routes : List OSRMRouteData

/-- What one routing tier of `OSRMService.get_route` yields: `none` when the
request failed, when `data["code"] != "Ok"`, or when `data["routes"][0]`
raises (empty list); otherwise the extracted `OSRMRoute` (osrm_service.py
lines 44-64 and 76-95, both tiers run the same extraction). -/
def tierRoute (resp : Option TierResponse) : Option OSRMRoute :=
  match resp with
  | none => none
  | some data =>
    if data.code ≠ "Ok" then none
    else
      match data.routes with
      | [] => none
      | route :: _ =>
        some ⟨route.geometry, route.distance, route.duration, route.geometry.coordinates⟩

/-- The straight-line fallback of `OSRMService.get_route` (osrm_service.py
lines 99-126): 11 points linearly interpolated between start and end, with
an equirectangular distance estimate and `duration = distance / 10`. -/
noncomputable def syntheticRoute (start_lng start_lat end_lng end_lat : ℝ) : OSRMRoute :=
  let steps : ℕ := 10
  let coordinates := (List.range (steps + 1)).map (fun (i : ℕ) =>
    let t : ℝ := (i : ℝ) / (steps : ℝ)
    let lng := start_lng + (end_lng - start_lng) * t
    let lat := start_lat + (end_lat - start_lat) * t
    Coord.mk lng lat)
  let dx := (end_lng - start_lng) * 111.32 * Real.cos (radians start_lat)
  let dy := (end_lat - start_lat) * 110.57
  let distance := Real.sqrt (dx * dx + dy * dy) * 1000
  let duration := distance / 10
  ⟨⟨"LineString", coordinates⟩, distance, duration, coordinates⟩

/-- `OSRMService.get_route` (osrm_service.py lines 13-126), parametrized by
the outcomes of the primary and public routing tiers: the primary result if
it is usable, else the public one, else the synthetic straight line. -/
noncomputable def get_route (primary public_resp : Option TierResponse)
    (start_lng start_lat end_lng end_lat : ℝ) : OSRMRoute :=
  match tierRoute primary with
  | some route => route
  | none =>
    match tierRoute public_resp with
    | some route => route
    | none => syntheticRoute start_lng start_lat end_lng end_lat

/-- `SpawnCarRequest` (models.py lines 7-13): `speed` is optional and
defaults to `30.0` km/h when omitted. -/
structure SpawnCarRequest where
  start_lng : ℝ
  start_lat : ℝ
  end_lng : ℝ
  end_lat : ℝ
  speed : Option ℝ := some 30

/-- One row of the `car_positions` emissions: the dict passed to
`db.insert_car_position`. -/
structure PositionSample where
  car_id : String
  lng : ℝ
  lat : ℝ
  heading : ℝ
  progress : ℝ

/-- One entry of `SimulationEngine.car_states`. -/
structure CarState where
  coordinates : List Coord
  current_index : ℕ
  progress : ℝ
  status : String

/-- The car row `update_car_position` fetches from the record store:
only its `speed` key is read, via `car.get("speed", 30.0)`, so a record
without the key is `speed = none`. -/
structure CarRecord where
  speed : Option ℝ

/-- The external record-store lookups one `update_car_position` call
performs: the car row found in `db.get_all_cars` (`none` when the car was
deleted) and the heading of `db.get_car_latest_position` (`none` when no
position exists yet). -/
structure TickEnv where
  car : Option CarRecord
  latest : Option ℝ

/-- `SimulationEngine._calculate_initial_heading` (simulation.py lines
67-74). -/
noncomputable def _calculate_initial_heading (coordinates : List Coord) : ℝ :=
  if coordinates.length < 2 then 0
  else
    calculate_bearing (coordinates.getD 0 ⟨0, 0⟩).lng (coordinates.getD 0 ⟨0, 0⟩).lat
      (coordinates.getD 1 ⟨0, 0⟩).lng (coordinates.getD 1 ⟨0, 0⟩).lat

/-- `SimulationEngine.add_car` (simulation.py lines 37-65): rejects a path of
fewer than 2 coordinates before touching the registry; otherwise builds the
fresh state and the initial position sample handed to
`db.insert_car_position`. -/
noncomputable def add_car (car_id : String) (route_coordinates : List Coord) :
    Except String (CarState × PositionSample) :=
  if route_coordinates.length < 2 then
    Except.error "Route must have at least 2 coordinates"
  else
    let state : CarState := ⟨route_coordinates, 0, 0, "moving"⟩
    let start_coord := route_coordinates.getD 0 ⟨0, 0⟩
    Except.ok (state,
      ⟨car_id, start_coord.lng, start_coord.lat,
        _calculate_initial_heading route_coordinates, 0⟩)

/-- `SimulationEngine._finish_car` (simulation.py lines 196-206), the part
that rewrites the in-memory state (the `db.update_car_status` call is a
side effect outside the registry). -/
def _finish_car (state : CarState) : CarState :=
  { state with status := "finished", progress := 100 }

/-- `SimulationEngine.update_car_position` (simulation.py lines 87-176) for
one car: takes the registry entry for `car_id` (`none` if unknown) and the
record-store lookups of this tick, returns the new registry entry (`none`
when the car row vanished and the entry is deleted) and the emitted
position sample, if any. -/
noncomputable def update_car_position (update_interval : ℝ) (car_id : String)
    (entry : Option CarState) (env : TickEnv) :
    Option CarState × Option PositionSample :=
  match entry with
  | none => (none, none)
  | some state =>
    if state.status = "finished" then (some state, none)
    else
      let coordinates := state.coordinates
      let current_index := state.current_index
      if current_index ≥ coordinates.length - 1 then
        (some (_finish_car state), none)
      else
        let current_point := coordinates.getD current_index ⟨0, 0⟩
        let next_point := coordinates.getD (current_index + 1) ⟨0, 0⟩
        match env.car with
        | none => (none, none)
        | some car =>
          let speed_kmh := car.speed.getD 30
          let distance_per_update := (speed_kmh / 3.6) * update_interval
          let segment_distance := calculate_distance
            current_point.lat current_point.lng next_point.lat next_point.lng
          if distance_per_update ≥ segment_distance then
            let new_index := current_index + 1
            let new_position := coordinates.getD new_index ⟨0, 0⟩
            let heading :=
              if new_index < coordinates.length - 1 then
                calculate_bearing new_position.lng new_position.lat
                  (coordinates.getD (new_index + 1) ⟨0, 0⟩).lng
                  (coordinates.getD (new_index + 1) ⟨0, 0⟩).lat
              else
                env.latest.getD 0
            let progress := ((new_index : ℝ) / ((coordinates.length : ℝ) - 1)) * 100
            (some { state with current_index := new_index, progress := progress },
              some ⟨car_id, new_position.lng, new_position.lat, heading, progress⟩)
          else
            let progress_ratio :=
              if segment_distance > 0 then distance_per_update / segment_distance else 0
            let new_lng := current_point.lng + (next_point.lng - current_point.lng) * progress_ratio
            let new_lat := current_point.lat + (next_point.lat - current_point.lat) * progress_ratio
            let new_coordinates := coordinates.set current_index ⟨new_lng, new_lat⟩
            let heading := calculate_bearing current_point.lng current_point.lat
              next_point.lng next_point.lat
            let progress := ((current_index : ℝ) / ((coordinates.length : ℝ) - 1)) * 100
            (some { state with coordinates := new_coordinates, progress := progress },
              some ⟨car_id, new_lng, new_lat, heading, progress⟩)

/-- Iterated `update_car_position` calls over a list of per-tick external
inputs: the state evolution of one car across a sequence of ticks. -/
noncomputable def runUpdates (update_interval : ℝ) (car_id : String)
    (envs : List TickEnv) (entry : Option CarState) : Option CarState :=
  envs.foldl (fun st env => (update_car_position update_interval car_id st env).1) entry

/-- The registry invariant `add_car` establishes and every tick preserves:
at least two waypoints, the cursor within bounds, `progress` the percentage
the source recomputes from the cursor, and a finished car parked on the
final waypoint. -/
def CarInv (s : CarState) : Prop :=
  2 ≤ s.coordinates.length ∧
  s.current_index ≤ s.coordinates.length - 1 ∧
  s.progress = ((s.current_index : ℝ) / ((s.coordinates.length : ℝ) - 1)) * 100 ∧
  (s.status = "finished" → s.current_index = s.coordinates.length - 1)

/-- Longitude (in degrees) of a point on the equator exactly 25 meters east
of the origin: the haversine distance from `(0, 0)` to `(L9, 0)` is 25 m. -/
noncomputable def L9 : ℝ := 4500 / (6371000 * Real.pi)

/-- Tick environment for the worked 36 km/h example: the car row exists with
`speed = 36`, and no previous position sample is consulted. -/
noncomputable def env9 : TickEnv := ⟨some ⟨some 36⟩, none⟩

/-- Initial state of the worked example: a 2-point path 25 m long. -/
noncomputable def s9_0 : CarState := ⟨[⟨0, 0⟩, ⟨L9, 0⟩], 0, 0, "moving"⟩

/-- State after tick 1 of the worked example: 10 of 25 m covered, the
segment start rewritten to the interpolated point. -/
noncomputable def s9_1 : CarState := ⟨[⟨2 * L9 / 5, 0⟩, ⟨L9, 0⟩], 0, 0, "moving"⟩

/-- State after tick 2 of the worked example: 20 of 25 m covered. -/
noncomputable def s9_2 : CarState := ⟨[⟨4 * L9 / 5, 0⟩, ⟨L9, 0⟩], 0, 0, "moving"⟩

/-- State after tick 3 of the worked example: the remaining 5 m fit in the
10 m budget, so the cursor advances to the final waypoint. -/
noncomputable def s9_3 : CarState := ⟨[⟨4 * L9 / 5, 0⟩, ⟨L9, 0⟩], 1, 100, "moving"⟩

/-- Sample emitted on tick 1 of the worked example. -/
noncomputable def p9_1 : PositionSample :=
  ⟨"car9", 2 * L9 / 5, 0, calculate_bearing 0 0 L9 0, 0⟩

/-- Sample emitted on tick 2 of the worked example. -/
noncomputable def p9_2 : PositionSample :=
  ⟨"car9", 4 * L9 / 5, 0, calculate_bearing (2 * L9 / 5) 0 L9 0, 0⟩

/-- Sample emitted on tick 3 of the worked example: the final waypoint,
heading 0 (no forward segment and no stored sample), progress 100. -/
noncomputable def p9_3 : PositionSample := ⟨"car9", L9, 0, 0, 100⟩

/-! ## Helper lemmas -/

theorem arctan_nonneg_of_nonneg (t : ℝ) (h : 0 ≤ t) : 0 ≤ Real.arctan t := by
  simpa using Real.arctan_strictMono.monotone h

theorem atan2_zero_zero : atan2 0 0 = 0 := by
  unfold atan2
  norm_num

theorem atan2_zero_one : atan2 0 1 = 0 := by
  unfold atan2
  rw [if_pos (by norm_num : (0:ℝ) < 1)]
  norm_num

theorem atan2_nonneg (y x : ℝ) (hy : 0 ≤ y) : 0 ≤ atan2 y x := by
  unfold atan2
  by_cases h1 : 0 < x
  · rw [if_pos h1]
    exact arctan_nonneg_of_nonneg _ (div_nonneg hy h1.le)
  · rw [if_neg h1]
    by_cases h2 : x < 0
    · rw [if_pos h2, if_pos hy]
      have := Real.neg_pi_div_two_lt_arctan (y / x)
      have hpi := Real.pi_pos
      linarith
    · rw [if_neg h2]
      by_cases h3 : 0 < y
      · rw [if_pos h3]
        positivity
      · rw [if_neg h3, if_neg (not_lt.mpr hy)]

theorem pymod_bounds (x y : ℝ) (hy : 0 < y) : 0 ≤ pymod x y ∧ pymod x y < y := by
  unfold pymod
  have hrw : x - y * (⌊x / y⌋ : ℝ) = y * (x / y - (⌊x / y⌋ : ℝ)) := by
    field_simp
  have hf0 : 0 ≤ x / y - (⌊x / y⌋ : ℝ) := by
    have := Int.floor_le (x / y)
    linarith
  have hf1 : x / y - (⌊x / y⌋ : ℝ) < 1 := by
    have := Int.lt_floor_add_one (x / y)
    linarith
  constructor
  · rw [hrw]
    exact mul_nonneg hy.le hf0
  · rw [hrw]
    calc y * (x / y - (⌊x / y⌋ : ℝ)) < y * 1 := by
          exact mul_lt_mul_of_pos_left hf1 hy
    _ = y := mul_one y

theorem calculate_distance_self (lat lng : ℝ) : calculate_distance lat lng lat lng = 0 := by
  simp only [calculate_distance, radians]
  rw [sub_self, sub_self, zero_mul, zero_div, zero_div]
  norm_num [Real.sin_zero, Real.sqrt_zero, Real.sqrt_one, atan2_zero_one]

/-- On the equator the haversine formula reduces to arc length: the distance
between `(l1, 0)` and `(l2, 0)` is the Earth radius times the longitude
difference in radians (for a nonnegative difference smaller than pi). -/
theorem calculate_distance_equator (l1 l2 : ℝ) (h0 : 0 ≤ l2 - l1)
    (h1 : (l2 - l1) * Real.pi / 180 < Real.pi) :
    calculate_distance 0 l1 0 l2 = 6371000 * ((l2 - l1) * Real.pi / 180) := by
  have hpi := Real.pi_pos
  set δ : ℝ := (l2 - l1) * Real.pi / 180 with hδ
  have hθ0 : 0 ≤ δ / 2 := by positivity
  have hθ2 : δ / 2 < Real.pi / 2 := by linarith
  have hsin0 : 0 ≤ Real.sin (δ / 2) :=
    Real.sin_nonneg_of_nonneg_of_le_pi hθ0 (by linarith)
  have hcospos : 0 < Real.cos (δ / 2) :=
    Real.cos_pos_of_mem_Ioo ⟨by linarith, hθ2⟩
  have hsq : Real.sqrt (Real.sin (δ / 2) ^ 2) = Real.sin (δ / 2) := Real.sqrt_sq hsin0
  have hcos2 : 1 - Real.sin (δ / 2) ^ 2 = Real.cos (δ / 2) ^ 2 := by
    have := Real.sin_sq_add_cos_sq (δ / 2)
    linarith
  have hsqc : Real.sqrt (Real.cos (δ / 2) ^ 2) = Real.cos (δ / 2) := Real.sqrt_sq hcospos.le
  have hatan : atan2 (Real.sin (δ / 2)) (Real.cos (δ / 2)) = δ / 2 := by
    unfold atan2
    rw [if_pos hcospos, ← Real.tan_eq_sin_div_cos, Real.arctan_tan (by linarith) hθ2]
  simp only [calculate_distance, radians]
  rw [sub_self, zero_mul, zero_div, zero_div]
  rw [show (l2 - l1) * Real.pi / 180 / 2 = δ / 2 by rw [hδ]]
  rw [Real.sin_zero, Real.cos_zero]
  norm_num
  rw [hsq, hcos2, hsqc, hatan]
  ring

theorem pymod_360_360 : pymod 360 360 = 0 := by
  unfold pymod
  rw [show (360:ℝ) / 360 = 1 by norm_num]
  rw [Int.floor_one]
  norm_num

theorem pymod_450_360 : pymod 450 360 = 90 := by
  unfold pymod
  have : ⌊(450:ℝ) / 360⌋ = 1 := by
    rw [Int.floor_eq_iff]
    constructor
    · push_cast
      norm_num
    · push_cast
      norm_num
  rw [this]
  norm_num

theorem degrees_zero : degrees 0 = 0 := by
  unfold degrees
  rw [zero_mul, zero_div]

theorem degrees_pi_div_two : degrees (Real.pi / 2) = 90 := by
  unfold degrees
  field_simp
  ring

theorem calculate_bearing_self (lng lat : ℝ) : calculate_bearing lng lat lng lat = 0 := by
  simp only [calculate_bearing, radians, degrees]
  rw [sub_self, zero_mul, zero_div, Real.sin_zero, Real.cos_zero, zero_mul]
  rw [show Real.cos (lat * Real.pi / 180) * Real.sin (lat * Real.pi / 180) -
      Real.sin (lat * Real.pi / 180) * Real.cos (lat * Real.pi / 180) * 1 = 0 by ring]
  rw [atan2_zero_zero, zero_mul, zero_div, zero_add]
  exact pymod_360_360

theorem calculate_bearing_mem_Ico (lng1 lat1 lng2 lat2 : ℝ) :
    0 ≤ calculate_bearing lng1 lat1 lng2 lat2 ∧ calculate_bearing lng1 lat1 lng2 lat2 < 360 := by
  simp only [calculate_bearing]
  exact pymod_bounds _ 360 (by norm_num)

theorem atan2_zero_pos (x : ℝ) (hx : 0 < x) : atan2 0 x = 0 := by
  unfold atan2
  rw [if_pos hx, zero_div, Real.arctan_zero]

theorem atan2_pos_zero (y : ℝ) (hy : 0 < y) : atan2 y 0 = Real.pi / 2 := by
  unfold atan2
  rw [if_neg (lt_irrefl 0), if_neg (lt_irrefl 0), if_pos hy]

theorem calculate_bearing_north : calculate_bearing 0 0 0 1 = 0 := by
  have hpi := Real.pi_pos
  have hs : 0 < Real.sin (Real.pi / 180) := by
    apply Real.sin_pos_of_pos_of_lt_pi
    · positivity
    · linarith
  simp only [calculate_bearing, radians]
  simp only [sub_self, sub_zero, zero_mul, mul_zero, one_mul, mul_one, zero_div,
    Real.sin_zero, Real.cos_zero]
  rw [atan2_zero_pos _ hs, degrees_zero, zero_add]
  exact pymod_360_360

theorem calculate_bearing_east : calculate_bearing 0 0 1 0 = 90 := by
  have hpi := Real.pi_pos
  have hs : 0 < Real.sin (Real.pi / 180) := by
    apply Real.sin_pos_of_pos_of_lt_pi
    · positivity
    · linarith
  simp only [calculate_bearing, radians]
  simp only [sub_self, sub_zero, zero_mul, mul_zero, one_mul, mul_one, zero_div,
    Real.sin_zero, Real.cos_zero]
  rw [atan2_pos_zero _ hs, degrees_pi_div_two]
  rw [show (90:ℝ) + 360 = 450 by norm_num]
  exact pymod_450_360

theorem calculate_distance_nonneg (lat1 lng1 lat2 lng2 : ℝ) :
    0 ≤ calculate_distance lat1 lng1 lat2 lng2 := by
  unfold calculate_distance
  have h := atan2_nonneg (Real.sqrt (Real.sin (radians (lat2 - lat1) / 2) ^ 2 +
    Real.cos (radians lat1) * Real.cos (radians lat2) *
      Real.sin (radians (lng2 - lng1) / 2) ^ 2))
    (Real.sqrt (1 - (Real.sin (radians (lat2 - lat1) / 2) ^ 2 +
      Real.cos (radians lat1) * Real.cos (radians lat2) *
        Real.sin (radians (lng2 - lng1) / 2) ^ 2)))
    (Real.sqrt_nonneg _)
  positivity

theorem update_none_eq (interval : ℝ) (id : String) (env : TickEnv) :
    update_car_position interval id none env = (none, none) := rfl

theorem update_finished_eq (interval : ℝ) (id : String) (s : CarState) (env : TickEnv)
    (h : s.status = "finished") :
    update_car_position interval id (some s) env = (some s, none) := by
  simp only [update_car_position]
  rw [if_pos h]

theorem update_finish_branch (interval : ℝ) (id : String) (s : CarState) (env : TickEnv)
    (hst : ¬ s.status = "finished")
    (hidx : s.current_index ≥ s.coordinates.length - 1) :
    update_car_position interval id (some s) env = (some (_finish_car s), none) := by
  simp only [update_car_position]
  rw [if_neg hst, if_pos hidx]

theorem update_deleted_eq (interval : ℝ) (id : String) (s : CarState) (env : TickEnv)
    (hst : ¬ s.status = "finished")
    (hidx : ¬ s.current_index ≥ s.coordinates.length - 1)
    (hcar : env.car = none) :
    update_car_position interval id (some s) env = (none, none) := by
  simp only [update_car_position]
  rw [if_neg hst, if_neg hidx, hcar]

theorem update_advance_eq (interval : ℝ) (id : String) (s : CarState) (env : TickEnv)
    (car : CarRecord) (cur nxt : Coord)
    (hst : ¬ s.status = "finished")
    (hidx : ¬ s.current_index ≥ s.coordinates.length - 1)
    (hcar : env.car = some car)
    (hcur : cur = s.coordinates.getD s.current_index ⟨0, 0⟩)
    (hnxt : nxt = s.coordinates.getD (s.current_index + 1) ⟨0, 0⟩)
    (hge : (car.speed.getD 30 / 3.6) * interval ≥
      calculate_distance cur.lat cur.lng nxt.lat nxt.lng) :
    update_car_position interval id (some s) env =
      (some { s with current_index := s.current_index + 1,
                     progress := (((s.current_index + 1 : ℕ) : ℝ) /
                       ((s.coordinates.length : ℝ) - 1)) * 100 },
       some ⟨id, nxt.lng, nxt.lat,
         (if s.current_index + 1 < s.coordinates.length - 1 then
            calculate_bearing nxt.lng nxt.lat
              (s.coordinates.getD (s.current_index + 1 + 1) ⟨0, 0⟩).lng
              (s.coordinates.getD (s.current_index + 1 + 1) ⟨0, 0⟩).lat
          else env.latest.getD 0),
         (((s.current_index + 1 : ℕ) : ℝ) / ((s.coordinates.length : ℝ) - 1)) * 100⟩) := by
  subst hcur hnxt
  simp only [update_car_position]
  rw [if_neg hst, if_neg hidx, hcar]
  simp only []
  rw [if_pos hge]

theorem update_interp_eq (interval : ℝ) (id : String) (s : CarState) (env : TickEnv)
    (car : CarRecord) (cur nxt : Coord)
    (hst : ¬ s.status = "finished")
    (hidx : ¬ s.current_index ≥ s.coordinates.length - 1)
    (hcar : env.car = some car)
    (hcur : cur = s.coordinates.getD s.current_index ⟨0, 0⟩)
    (hnxt : nxt = s.coordinates.getD (s.current_index + 1) ⟨0, 0⟩)
    (hlt : ¬ (car.speed.getD 30 / 3.6) * interval ≥
      calculate_distance cur.lat cur.lng nxt.lat nxt.lng) :
    update_car_position interval id (some s) env =
      (some { s with
                coordinates := s.coordinates.set s.current_index
                  ⟨cur.lng + (nxt.lng - cur.lng) *
                     (if calculate_distance cur.lat cur.lng nxt.lat nxt.lng > 0 then
                        (car.speed.getD 30 / 3.6) * interval /
                          calculate_distance cur.lat cur.lng nxt.lat nxt.lng
                      else 0),
                   cur.lat + (nxt.lat - cur.lat) *
                     (if calculate_distance cur.lat cur.lng nxt.lat nxt.lng > 0 then
                        (car.speed.getD 30 / 3.6) * interval /
                          calculate_distance cur.lat cur.lng nxt.lat nxt.lng
                      else 0)⟩,
                progress := ((s.current_index : ℝ) /
                  ((s.coordinates.length : ℝ) - 1)) * 100 },
       some ⟨id,
         cur.lng + (nxt.lng - cur.lng) *
           (if calculate_distance cur.lat cur.lng nxt.lat nxt.lng > 0 then
              (car.speed.getD 30 / 3.6) * interval /
                calculate_distance cur.lat cur.lng nxt.lat nxt.lng
            else 0),
         cur.lat + (nxt.lat - cur.lat) *
           (if calculate_distance cur.lat cur.lng nxt.lat nxt.lng > 0 then
              (car.speed.getD 30 / 3.6) * interval /
                calculate_distance cur.lat cur.lng nxt.lat nxt.lng
            else 0),
         calculate_bearing cur.lng cur.lat nxt.lng nxt.lat,
         ((s.current_index : ℝ) / ((s.coordinates.length : ℝ) - 1)) * 100⟩) := by
  subst hcur hnxt
  simp only [update_car_position]
  rw [if_neg hst, if_neg hidx, hcar]
  simp only []
  rw [if_neg hlt]

theorem carInv_cast_len (s : CarState) (h : 2 ≤ s.coordinates.length) :
    ((s.coordinates.length - 1 : ℕ) : ℝ) = (s.coordinates.length : ℝ) - 1 := by
  have h1 : 1 ≤ s.coordinates.length := le_trans (by norm_num) h
  push_cast [Nat.cast_sub h1]
  ring

theorem carInv_len_pos (s : CarState) (h : 2 ≤ s.coordinates.length) :
    (0 : ℝ) < (s.coordinates.length : ℝ) - 1 := by
  have : (2 : ℝ) ≤ (s.coordinates.length : ℝ) := by exact_mod_cast h
  linarith

theorem carInv_progress_bounds (s : CarState) (h : CarInv s) :
    0 ≤ s.progress ∧ s.progress ≤ 100 := by
  obtain ⟨hlen, hidx, hprog, _⟩ := h
  have hL := carInv_len_pos s hlen
  constructor
  · rw [hprog]
    exact mul_nonneg (div_nonneg (Nat.cast_nonneg _) hL.le) (by norm_num)
  · rw [hprog]
    have hidxR : (s.current_index : ℝ) ≤ (s.coordinates.length : ℝ) - 1 := by
      calc (s.current_index : ℝ) ≤ ((s.coordinates.length - 1 : ℕ) : ℝ) := by
            exact_mod_cast hidx
      _ = (s.coordinates.length : ℝ) - 1 := carInv_cast_len s hlen
    have hdiv : (s.current_index : ℝ) / ((s.coordinates.length : ℝ) - 1) ≤ 1 :=
      (div_le_one hL).mpr hidxR
    calc (s.current_index : ℝ) / ((s.coordinates.length : ℝ) - 1) * 100 ≤ 1 * 100 :=
          mul_le_mul_of_nonneg_right hdiv (by norm_num)
    _ = 100 := one_mul 100

theorem carInv_finished_progress (s : CarState) (h : CarInv s)
    (hf : s.status = "finished") : s.progress = 100 := by
  obtain ⟨hlen, hidx, hprog, hfin⟩ := h
  have hL := carInv_len_pos s hlen
  rw [hprog, hfin hf, carInv_cast_len s hlen, div_self hL.ne']
  norm_num

/-- One tick preserves the registry invariant, never decreases the cursor or
the progress, and is a strict no-op on a finished car. -/
theorem update_step_inv (interval : ℝ) (id : String) (s : CarState) (env : TickEnv)
    (h : CarInv s) (s' : CarState) (smp : Option PositionSample)
    (heq : update_car_position interval id (some s) env = (some s', smp)) :
    CarInv s' ∧ s.progress ≤ s'.progress ∧ s.current_index ≤ s'.current_index ∧
      (s.status = "finished" → s' = s ∧ smp = none) := by
  obtain ⟨hlen, hidx, hprog, hfin⟩ := h
  have hL := carInv_len_pos s hlen
  by_cases hst : s.status = "finished"
  · rw [update_finished_eq interval id s env hst] at heq
    injection heq with h1 h2
    obtain rfl := Option.some.inj h1
    exact ⟨⟨hlen, hidx, hprog, hfin⟩, le_refl _, le_refl _, fun _ => ⟨rfl, h2.symm⟩⟩
  · by_cases hterm : s.current_index ≥ s.coordinates.length - 1
    · rw [update_finish_branch interval id s env hst hterm] at heq
      injection heq with h1 h2
      obtain rfl := Option.some.inj h1
      have hidx_eq : s.current_index = s.coordinates.length - 1 := le_antisymm hidx hterm
      refine ⟨⟨?_, ?_, ?_, ?_⟩, ?_, ?_, fun hf => absurd hf hst⟩
      · simpa [_finish_car] using hlen
      · simpa [_finish_car] using hidx
      · show (100 : ℝ) = (((_finish_car s).current_index : ℝ) /
          (((_finish_car s).coordinates.length : ℝ) - 1)) * 100
        simp only [_finish_car]
        rw [hidx_eq, carInv_cast_len s hlen, div_self hL.ne', one_mul]
      · intro _
        simpa [_finish_car] using hidx_eq
      · have hb := carInv_progress_bounds s ⟨hlen, hidx, hprog, hfin⟩
        simpa [_finish_car] using hb.2
      · simp [_finish_car]
    · cases hcar : env.car with
      | none =>
        rw [update_deleted_eq interval id s env hst hterm hcar] at heq
        exact absurd heq (by simp)
      | some car =>
        by_cases hbig : (car.speed.getD 30 / 3.6) * interval ≥
            calculate_distance (s.coordinates.getD s.current_index ⟨0, 0⟩).lat
              (s.coordinates.getD s.current_index ⟨0, 0⟩).lng
              (s.coordinates.getD (s.current_index + 1) ⟨0, 0⟩).lat
              (s.coordinates.getD (s.current_index + 1) ⟨0, 0⟩).lng
        · rw [update_advance_eq interval id s env car _ _ hst hterm hcar rfl rfl hbig] at heq
          injection heq with h1 h2
          obtain rfl := Option.some.inj h1
          have hlt : s.current_index < s.coordinates.length - 1 := not_le.mp hterm
          have hsucc : s.current_index + 1 ≤ s.coordinates.length - 1 := hlt
          refine ⟨⟨?_, ?_, ?_, ?_⟩, ?_, ?_, fun hf => absurd hf hst⟩
          · simpa using hlen
          · simpa using hsucc
          · simp
          · intro hf
            exact absurd (by simpa using hf) hst
          · show s.progress ≤ (((s.current_index + 1 : ℕ) : ℝ) /
              ((s.coordinates.length : ℝ) - 1)) * 100
            rw [hprog]
            have hc : (s.current_index : ℝ) ≤ ((s.current_index + 1 : ℕ) : ℝ) := by
              push_cast
              linarith
            exact mul_le_mul_of_nonneg_right ((div_le_div_iff_of_pos_right hL).mpr hc)
              (by norm_num)
          · exact Nat.le_succ _
        · rw [update_interp_eq interval id s env car _ _ hst hterm hcar rfl rfl hbig] at heq
          injection heq with h1 h2
          obtain rfl := Option.some.inj h1
          refine ⟨⟨?_, ?_, ?_, ?_⟩, ?_, le_refl _, fun hf => absurd hf hst⟩
          · simpa [List.length_set] using hlen
          · simpa [List.length_set] using hidx
          · simp [List.length_set]
          · intro hf
            exact absurd (by simpa using hf) hst
          · exact le_of_eq (by simpa using hprog)

theorem runUpdates_none_eq (interval : ℝ) (id : String) (envs : List TickEnv) :
    runUpdates interval id envs none = none := by
  induction envs with
  | nil => rfl
  | cons e es ih =>
    unfold runUpdates
    rw [List.foldl_cons]
    rw [show (update_car_position interval id none e).1 = none from rfl]
    exact ih

/-- Across any sequence of ticks, a surviving car keeps the invariant, never
decreases its progress or cursor, and stays frozen once finished. -/
theorem runUpdates_inv (interval : ℝ) (id : String) (envs : List TickEnv) :
    ∀ s : CarState, CarInv s → ∀ s', runUpdates interval id envs (some s) = some s' →
      CarInv s' ∧ s.progress ≤ s'.progress ∧ s.current_index ≤ s'.current_index ∧
        (s.status = "finished" → s' = s) := by
  induction envs with
  | nil =>
    intro s h s' heq
    obtain rfl : s = s' := Option.some.inj heq
    exact ⟨h, le_refl _, le_refl _, fun _ => rfl⟩
  | cons e es ih =>
    intro s h s' heq
    rw [show runUpdates interval id (e :: es) (some s) =
        runUpdates interval id es (update_car_position interval id (some s) e).1 from rfl] at heq
    rcases h1 : update_car_position interval id (some s) e with ⟨st1, smp1⟩
    rw [h1] at heq
    cases st1 with
    | none =>
      rw [runUpdates_none_eq] at heq
      exact absurd heq (by simp)
    | some s1 =>
      obtain ⟨hinv1, hprog1, hidx1, hfin1⟩ := update_step_inv interval id s e h s1 smp1 h1
      obtain ⟨hinv', hprog', hidx', hfin'⟩ := ih s1 hinv1 s' heq
      refine ⟨hinv', le_trans hprog1 hprog', le_trans hidx1 hidx', fun hf => ?_⟩
      obtain ⟨hs1, -⟩ := hfin1 hf
      rw [hs1] at hfin'
      exact hfin' hf

theorem add_car_ok_eq (id : String) (path : List Coord) (h : ¬ path.length < 2) :
    add_car id path = Except.ok (⟨path, 0, 0, "moving"⟩,
      ⟨id, (path.getD 0 ⟨0, 0⟩).lng, (path.getD 0 ⟨0, 0⟩).lat,
        _calculate_initial_heading path, 0⟩) := by
  simp only [add_car]
  rw [if_neg h]

/-! ## Claim theorems -/

/-- C8: `calculate_bearing` lands in `[0, 360)` for all real inputs; on a
pair of identical coordinates it deterministically returns 0; the bearing
from (0,0) to (0,1) in (lng,lat) order is 0 degrees and the bearing from
(0,0) to (1,0) is 90 degrees. -/
theorem C8_bearing_range_and_examples :
    (∀ lng1 lat1 lng2 lat2 : ℝ,
      0 ≤ calculate_bearing lng1 lat1 lng2 lat2 ∧
        calculate_bearing lng1 lat1 lng2 lat2 < 360) ∧
    (∀ lng lat : ℝ, calculate_bearing lng lat lng lat = 0) ∧
    calculate_bearing 0 0 0 1 = 0 ∧
    calculate_bearing 0 0 1 0 = 90 :=
  ⟨calculate_bearing_mem_Ico, calculate_bearing_self,
    calculate_bearing_north, calculate_bearing_east⟩

/-- C5: `get_route` is total over every combination of tier outcomes
(network failure, non-Ok code, or empty route list makes a tier yield
nothing) and degrades in order: primary route if usable, else the public
route if usable, else the always-defined synthetic straight-line route. -/
theorem C5_get_route_never_fails (p q : Option TierResponse) (a b c d : ℝ) :
    (∀ r, tierRoute p = some r → get_route p q a b c d = r) ∧
    (tierRoute p = none → ∀ r, tierRoute q = some r → get_route p q a b c d = r) ∧
    (tierRoute p = none → tierRoute q = none →
      get_route p q a b c d = syntheticRoute a b c d) ∧
    tierRoute none = none ∧
    (∀ resp : TierResponse, tierRoute (some resp) = none ↔
      resp.code ≠ "Ok" ∨ resp.routes = []) := by
  refine ⟨?_, ?_, ?_, rfl, ?_⟩
  · intro r h
    unfold get_route
    rw [h]
  · intro h1 r h2
    unfold get_route
    rw [h1, h2]
  · intro h1 h2
    unfold get_route
    rw [h1, h2]
  · intro resp
    rcases resp with ⟨code, routes⟩
    by_cases h : code = "Ok"
    · cases routes <;> simp [tierRoute, h]
    · simp [tierRoute, h]

/-- C6: the synthetic tier route has exactly 11 coordinates, the i-th being
the componentwise linear interpolation of start and end at parameter i/10
(so the 0th is start and the 10th is end, exactly over the reals), its
distance is the equirectangular estimate and its duration is distance/10. -/
theorem C6_synthetic_route (a b c d : ℝ) :
    (syntheticRoute a b c d).coordinates.length = 11 ∧
    (∀ i : ℕ, i < 11 → (syntheticRoute a b c d).coordinates.getD i ⟨0, 0⟩ =
      ⟨a + ((i : ℝ) / 10) * (c - a), b + ((i : ℝ) / 10) * (d - b)⟩) ∧
    (syntheticRoute a b c d).coordinates.getD 0 ⟨0, 0⟩ = ⟨a, b⟩ ∧
    (syntheticRoute a b c d).coordinates.getD 10 ⟨0, 0⟩ = ⟨c, d⟩ ∧
    (syntheticRoute a b c d).distance =
      Real.sqrt (((c - a) * 111.32 * Real.cos (radians b)) ^ 2 +
        ((d - b) * 110.57) ^ 2) * 1000 ∧
    (syntheticRoute a b c d).duration = (syntheticRoute a b c d).distance / 10 := by
  have hget : ∀ i : ℕ, i < 11 → (syntheticRoute a b c d).coordinates.getD i ⟨0, 0⟩ =
      ⟨a + ((i : ℝ) / 10) * (c - a), b + ((i : ℝ) / 10) * (d - b)⟩ := by
    intro i hi
    simp only [syntheticRoute]
    rw [List.getD_eq_getElem?_getD, List.getElem?_map, List.getElem?_range hi]
    simp only [Option.map_some', Option.getD_some]
    rw [Coord.mk.injEq]
    constructor
    · push_cast
      ring
    · push_cast
      ring
  refine ⟨?_, hget, ?_, ?_, ?_, ?_⟩
  · simp [syntheticRoute]
  · rw [hget 0 (by norm_num), Coord.mk.injEq]
    exact ⟨by norm_num, by norm_num⟩
  · rw [hget 10 (by norm_num), Coord.mk.injEq]
    constructor
    · push_cast
      ring
    · push_cast
      ring
  · simp only [syntheticRoute]
    rw [show ((c - a) * 111.32 * Real.cos (radians b)) *
        ((c - a) * 111.32 * Real.cos (radians b)) +
        ((d - b) * 110.57) * ((d - b) * 110.57) =
        ((c - a) * 111.32 * Real.cos (radians b)) ^ 2 + ((d - b) * 110.57) ^ 2 by ring]
  · simp only [syntheticRoute]

/-- C7: `add_car` fails (with the at-least-2-coordinates error) exactly
when the path has fewer than 2 coordinates — in the failure case no state
and no sample are produced — and on success yields the fresh state
(cursor 0, progress 0, status moving, the given path) together with one
initial sample at `path[0]` with progress 0 and heading
`calculate_bearing path[0] path[1]`. -/
theorem C7_register_entity (id : String) (path : List Coord) :
    ((∃ e, add_car id path = Except.error e) ↔ path.length < 2) ∧
    (∀ st smp, add_car id path = Except.ok (st, smp) →
      st.coordinates = path ∧ st.current_index = 0 ∧ st.progress = 0 ∧
      st.status = "moving" ∧
      smp = ⟨id, (path.getD 0 ⟨0, 0⟩).lng, (path.getD 0 ⟨0, 0⟩).lat,
        calculate_bearing (path.getD 0 ⟨0, 0⟩).lng (path.getD 0 ⟨0, 0⟩).lat
          (path.getD 1 ⟨0, 0⟩).lng (path.getD 1 ⟨0, 0⟩).lat, 0⟩) := by
  by_cases h : path.length < 2
  · refine ⟨⟨fun _ => h, fun _ => ⟨"Route must have at least 2 coordinates", ?_⟩⟩, ?_⟩
    · simp only [add_car]
      rw [if_pos h]
    · intro st smp heq
      simp only [add_car] at heq
      rw [if_pos h] at heq
      exact absurd heq (by simp)
  · refine ⟨⟨?_, fun hlt => absurd hlt h⟩, ?_⟩
    · rintro ⟨e, heq⟩
      rw [add_car_ok_eq id path h] at heq
      exact absurd heq (by simp)
    · intro st smp heq
      rw [add_car_ok_eq id path h] at heq
      injection heq with heq'
      injection heq' with hst hsmp
      subst hst
      subst hsmp
      refine ⟨rfl, rfl, rfl, rfl, ?_⟩
      unfold _calculate_initial_heading
      rw [if_neg h]

/-- C10: a car row found without a `speed` key makes the tick behave
exactly as if the speed were 30.0 km/h (`car.get("speed", 30.0)`), and
30.0 is also the `SpawnCarRequest` default used when `speed` is omitted;
this fallback value appears nowhere in the spec. -/
theorem C10_missing_speed_defaults :
    (∀ (interval : ℝ) (id : String) (entry : Option CarState) (latest : Option ℝ),
      update_car_position interval id entry ⟨some ⟨none⟩, latest⟩ =
        update_car_position interval id entry ⟨some ⟨some 30⟩, latest⟩) ∧
    (∀ a b c d : ℝ,
      ({ start_lng := a, start_lat := b, end_lng := c, end_lat := d } :
        SpawnCarRequest).speed = some 30) := by
  constructor
  · intro interval id entry latest
    cases entry with
    | none => rfl
    | some s => rfl
  · intro a b c d
    rfl

/-- C4: a tick for an unknown id, or for a car already finished, is a strict
no-op: no sample is emitted and the registry entry (absent in the first
case, the unchanged state in the second) is preserved as is. -/
theorem C4_advance_noop (interval : ℝ) (id : String) (env : TickEnv) :
    update_car_position interval id none env = (none, none) ∧
    (∀ s : CarState, s.status = "finished" →
      update_car_position interval id (some s) env = (some s, none)) :=
  ⟨update_none_eq interval id env, fun s h => update_finished_eq interval id s env h⟩

/-- C1: on a Moving car whose cursor is not yet on the final segment
boundary, a tick whose distance budget `(speedKmh / 3.6) * tickInterval`
reaches or passes the next waypoint advances the cursor by exactly one,
leaves the path untouched, and emits the waypoint `path[segmentIndex]`
itself as the new position — for every budget satisfying the bound, so the
leftover distance is discarded rather than carried into the next segment
within the same tick. -/
theorem C1_segment_completion (interval : ℝ) (id : String) (s : CarState)
    (env : TickEnv) (car : CarRecord)
    (hmov : s.status = "moving")
    (hcar : env.car = some car)
    (hidx : s.current_index < s.coordinates.length - 1)
    (hge : (car.speed.getD 30 / 3.6) * interval ≥
      calculate_distance (s.coordinates.getD s.current_index ⟨0, 0⟩).lat
        (s.coordinates.getD s.current_index ⟨0, 0⟩).lng
        (s.coordinates.getD (s.current_index + 1) ⟨0, 0⟩).lat
        (s.coordinates.getD (s.current_index + 1) ⟨0, 0⟩).lng) :
    ∃ s' smp, update_car_position interval id (some s) env = (some s', some smp) ∧
      s'.current_index = s.current_index + 1 ∧
      s'.coordinates = s.coordinates ∧
      smp.lng = (s.coordinates.getD (s.current_index + 1) ⟨0, 0⟩).lng ∧
      smp.lat = (s.coordinates.getD (s.current_index + 1) ⟨0, 0⟩).lat :=
  ⟨_, _, update_advance_eq interval id s env car _ _
    (by rw [hmov]; simp) (not_le.mpr hidx) hcar rfl rfl hge, rfl, rfl, rfl, rfl⟩

/-- C2: on a Moving car whose budget is strictly below the segment length,
the tick interpolates: with `ratio` guarded to 0 when the segment length is
0 (so the division never happens on a zero denominator), the new position
is `current + ratio * (next - current)` componentwise, the heading is
`calculate_bearing current next`, the path entry at the cursor is rewritten
to the interpolated point while every other entry, the cursor and the
status are untouched, and `progress` is recomputed from the unchanged
cursor. -/
theorem C2_interpolation_step (interval : ℝ) (id : String) (s : CarState)
    (env : TickEnv) (car : CarRecord)
    (hmov : s.status = "moving")
    (hcar : env.car = some car)
    (hidx : s.current_index < s.coordinates.length - 1)
    (hlt : (car.speed.getD 30 / 3.6) * interval <
      calculate_distance (s.coordinates.getD s.current_index ⟨0, 0⟩).lat
        (s.coordinates.getD s.current_index ⟨0, 0⟩).lng
        (s.coordinates.getD (s.current_index + 1) ⟨0, 0⟩).lat
        (s.coordinates.getD (s.current_index + 1) ⟨0, 0⟩).lng) :
    ∃ s' smp, update_car_position interval id (some s) env = (some s', some smp) ∧
      s'.coordinates = s.coordinates.set s.current_index
        ⟨(s.coordinates.getD s.current_index ⟨0, 0⟩).lng +
           ((s.coordinates.getD (s.current_index + 1) ⟨0, 0⟩).lng -
             (s.coordinates.getD s.current_index ⟨0, 0⟩).lng) *
           (if calculate_distance (s.coordinates.getD s.current_index ⟨0, 0⟩).lat
                (s.coordinates.getD s.current_index ⟨0, 0⟩).lng
                (s.coordinates.getD (s.current_index + 1) ⟨0, 0⟩).lat
                (s.coordinates.getD (s.current_index + 1) ⟨0, 0⟩).lng = 0 then 0
            else (car.speed.getD 30 / 3.6) * interval /
              calculate_distance (s.coordinates.getD s.current_index ⟨0, 0⟩).lat
                (s.coordinates.getD s.current_index ⟨0, 0⟩).lng
                (s.coordinates.getD (s.current_index + 1) ⟨0, 0⟩).lat
                (s.coordinates.getD (s.current_index + 1) ⟨0, 0⟩).lng),
         (s.coordinates.getD s.current_index ⟨0, 0⟩).lat +
           ((s.coordinates.getD (s.current_index + 1) ⟨0, 0⟩).lat -
             (s.coordinates.getD s.current_index ⟨0, 0⟩).lat) *
           (if calculate_distance (s.coordinates.getD s.current_index ⟨0, 0⟩).lat
                (s.coordinates.getD s.current_index ⟨0, 0⟩).lng
                (s.coordinates.getD (s.current_index + 1) ⟨0, 0⟩).lat
                (s.coordinates.getD (s.current_index + 1) ⟨0, 0⟩).lng = 0 then 0
            else (car.speed.getD 30 / 3.6) * interval /
              calculate_distance (s.coordinates.getD s.current_index ⟨0, 0⟩).lat
                (s.coordinates.getD s.current_index ⟨0, 0⟩).lng
                (s.coordinates.getD (s.current_index + 1) ⟨0, 0⟩).lat
                (s.coordinates.getD (s.current_index + 1) ⟨0, 0⟩).lng)⟩ ∧
      s'.current_index = s.current_index ∧
      s'.status = s.status ∧
      s'.progress = ((s.current_index : ℝ) / ((s.coordinates.length : ℝ) - 1)) * 100 ∧
      smp.heading = calculate_bearing (s.coordinates.getD s.current_index ⟨0, 0⟩).lng
        (s.coordinates.getD s.current_index ⟨0, 0⟩).lat
        (s.coordinates.getD (s.current_index + 1) ⟨0, 0⟩).lng
        (s.coordinates.getD (s.current_index + 1) ⟨0, 0⟩).lat ∧
      (∀ j, j ≠ s.current_index → s'.coordinates[j]? = s.coordinates[j]?) := by
  have hseg : 0 ≤ calculate_distance (s.coordinates.getD s.current_index ⟨0, 0⟩).lat
      (s.coordinates.getD s.current_index ⟨0, 0⟩).lng
      (s.coordinates.getD (s.current_index + 1) ⟨0, 0⟩).lat
      (s.coordinates.getD (s.current_index + 1) ⟨0, 0⟩).lng :=
    calculate_distance_nonneg _ _ _ _
  have hratio : (if calculate_distance (s.coordinates.getD s.current_index ⟨0, 0⟩).lat
        (s.coordinates.getD s.current_index ⟨0, 0⟩).lng
        (s.coordinates.getD (s.current_index + 1) ⟨0, 0⟩).lat
        (s.coordinates.getD (s.current_index + 1) ⟨0, 0⟩).lng > 0 then
          (car.speed.getD 30 / 3.6) * interval /
            calculate_distance (s.coordinates.getD s.current_index ⟨0, 0⟩).lat
              (s.coordinates.getD s.current_index ⟨0, 0⟩).lng
              (s.coordinates.getD (s.current_index + 1) ⟨0, 0⟩).lat
              (s.coordinates.getD (s.current_index + 1) ⟨0, 0⟩).lng
        else 0) =
      (if calculate_distance (s.coordinates.getD s.current_index ⟨0, 0⟩).lat
        (s.coordinates.getD s.current_index ⟨0, 0⟩).lng
        (s.coordinates.getD (s.current_index + 1) ⟨0, 0⟩).lat
        (s.coordinates.getD (s.current_index + 1) ⟨0, 0⟩).lng = 0 then 0
       else (car.speed.getD 30 / 3.6) * interval /
         calculate_distance (s.coordinates.getD s.current_index ⟨0, 0⟩).lat
           (s.coordinates.getD s.current_index ⟨0, 0⟩).lng
           (s.coordinates.getD (s.current_index + 1) ⟨0, 0⟩).lat
           (s.coordinates.getD (s.current_index + 1) ⟨0, 0⟩).lng) := by
    by_cases hz : calculate_distance (s.coordinates.getD s.current_index ⟨0, 0⟩).lat
        (s.coordinates.getD s.current_index ⟨0, 0⟩).lng
        (s.coordinates.getD (s.current_index + 1) ⟨0, 0⟩).lat
        (s.coordinates.getD (s.current_index + 1) ⟨0, 0⟩).lng = 0
    · rw [if_pos hz, if_neg (by rw [hz]; exact lt_irrefl 0)]
    · rw [if_neg hz, if_pos (lt_of_le_of_ne hseg (Ne.symm hz))]
  refine ⟨_, _, update_interp_eq interval id s env car _ _
    (by rw [hmov]; simp) (not_le.mpr hidx) hcar rfl rfl (not_le.mpr hlt), ?_, rfl, rfl,
    rfl, rfl, ?_⟩
  · rw [← hratio]
  · intro j hj
    exact List.getElem?_set_ne (fun hcontra => hj hcontra.symm)

/-- C3: registration establishes the registry invariant, and across any
sequence of ticks a surviving car keeps it: `progressPercent` is
non-decreasing, stays within [0,100], always equals
`(segmentIndex / (len(path)-1)) * 100`, is pinned to exactly 100 from the
moment the car is finished, and the cursor always satisfies
`segmentIndex ≤ len(path) - 1` while never decreasing. -/
theorem C3_progress_invariants :
    (∀ (id : String) (path : List Coord) (st : CarState) (smp : PositionSample),
      add_car id path = Except.ok (st, smp) → CarInv st) ∧
    (∀ (interval : ℝ) (id : String) (envs : List TickEnv) (s s' : CarState),
      CarInv s → runUpdates interval id envs (some s) = some s' →
      CarInv s' ∧ s.progress ≤ s'.progress ∧ s.current_index ≤ s'.current_index ∧
        0 ≤ s'.progress ∧ s'.progress ≤ 100 ∧
        s'.current_index ≤ s'.coordinates.length - 1 ∧
        s'.progress = ((s'.current_index : ℝ) /
          ((s'.coordinates.length : ℝ) - 1)) * 100 ∧
        (s'.status = "finished" → s'.progress = 100) ∧
        (s.status = "finished" → s' = s)) := by
  constructor
  · intro id path st smp heq
    by_cases h : path.length < 2
    · simp only [add_car] at heq
      rw [if_pos h] at heq
      exact absurd heq (by simp)
    · rw [add_car_ok_eq id path h] at heq
      injection heq with heq'
      injection heq' with hst hsmp
      subst hst
      refine ⟨not_lt.mp h, Nat.zero_le _, ?_, ?_⟩
      · simp
      · intro hf
        exact absurd hf (by simp)
  · intro interval id envs s s' hinv heq
    obtain ⟨hinv', hprog, hidx, hfin⟩ := runUpdates_inv interval id envs s hinv s' heq
    obtain ⟨hb0, hb1⟩ := carInv_progress_bounds s' hinv'
    exact ⟨hinv', hprog, hidx, hb0, hb1, hinv'.2.1, hinv'.2.2.1,
      fun hf => carInv_finished_progress s' hinv' hf, hfin⟩

theorem L9_pos : 0 < L9 := by
  unfold L9
  positivity

theorem dist9_1 : calculate_distance 0 0 0 L9 = 25 := by
  have hpi3 := Real.pi_gt_three
  have hval : (L9 - 0) * Real.pi / 180 = 25 / 6371000 := by
    unfold L9
    field_simp
    ring
  rw [calculate_distance_equator 0 L9 (by simpa using L9_pos.le)
    (by rw [hval]; linarith), hval]
  norm_num

theorem dist9_2 : calculate_distance 0 (2 * L9 / 5) 0 L9 = 15 := by
  have hpi3 := Real.pi_gt_three
  have hL := L9_pos
  have hval : (L9 - 2 * L9 / 5) * Real.pi / 180 = 15 / 6371000 := by
    unfold L9
    field_simp
    ring
  rw [calculate_distance_equator (2 * L9 / 5) L9 (by linarith)
    (by rw [hval]; linarith), hval]
  norm_num

theorem dist9_3 : calculate_distance 0 (4 * L9 / 5) 0 L9 = 5 := by
  have hpi3 := Real.pi_gt_three
  have hL := L9_pos
  have hval : (L9 - 4 * L9 / 5) * Real.pi / 180 = 5 / 6371000 := by
    unfold L9
    field_simp
    ring
  rw [calculate_distance_equator (4 * L9 / 5) L9 (by linarith)
    (by rw [hval]; linarith), hval]
  norm_num

/-- C9: with speed 36 km/h and a 1.0 s tick the distance budget is exactly
10.0 m; on a 2-point path whose endpoints are 25 m apart the car needs
exactly 3 ticks to clear the segment: ticks 1 and 2 interpolate 10 m each
(rewriting the segment start, cursor still 0), and on tick 3 the remaining
5 m fit in the budget, so the cursor moves 0 to 1, the emitted position is
the final waypoint, and progress reaches 100 because the path has a single
segment. -/
theorem C9_three_tick_example :
    (36 / 3.6) * (1 : ℝ) = 10 ∧
    calculate_distance 0 0 0 L9 = 25 ∧
    update_car_position 1 "car9" (some s9_0) env9 = (some s9_1, some p9_1) ∧
    update_car_position 1 "car9" (some s9_1) env9 = (some s9_2, some p9_2) ∧
    update_car_position 1 "car9" (some s9_2) env9 = (some s9_3, some p9_3) ∧
    s9_1.current_index = 0 ∧ s9_2.current_index = 0 ∧
    s9_3.current_index = 1 ∧ s9_3.progress = 100 ∧
    p9_3.lng = L9 ∧ p9_3.lat = 0 := by
  have hcar9 : env9.car = some ⟨some 36⟩ := rfl
  have hbudget : ((some (36:ℝ)).getD 30 / 3.6) * (1:ℝ) = 10 := by norm_num
  refine ⟨by norm_num, dist9_1, ?_, ?_, ?_, rfl, rfl, rfl, rfl, rfl, rfl⟩
  · have h := update_interp_eq 1 "car9" s9_0 env9 ⟨some 36⟩ ⟨0, 0⟩ ⟨L9, 0⟩
      (by decide) (by decide) hcar9 rfl rfl
      (by show ¬ _ ≥ calculate_distance (0:ℝ) 0 0 L9; rw [dist9_1]; norm_num)
    rw [h]
    simp only [s9_0, s9_1, p9_1, List.length_cons, List.length_nil]
    rw [dist9_1]
    rw [if_pos (show (25:ℝ) > 0 by norm_num)]
    simp only [Option.getD_some, List.set]
    norm_num [Prod.mk.injEq, Option.some.injEq, CarState.mk.injEq,
      PositionSample.mk.injEq, Coord.mk.injEq]
    ring
  · have h := update_interp_eq 1 "car9" s9_1 env9 ⟨some 36⟩ ⟨2 * L9 / 5, 0⟩ ⟨L9, 0⟩
      (by decide) (by decide) hcar9 rfl rfl
      (by show ¬ _ ≥ calculate_distance (0:ℝ) (2 * L9 / 5) 0 L9; rw [dist9_2]; norm_num)
    rw [h]
    simp only [s9_1, s9_2, p9_2, List.length_cons, List.length_nil]
    rw [dist9_2]
    rw [if_pos (show (15:ℝ) > 0 by norm_num)]
    simp only [Option.getD_some, List.set]
    norm_num [Prod.mk.injEq, Option.some.injEq, CarState.mk.injEq,
      PositionSample.mk.injEq, Coord.mk.injEq]
    ring
  · have h := update_advance_eq 1 "car9" s9_2 env9 ⟨some 36⟩ ⟨4 * L9 / 5, 0⟩ ⟨L9, 0⟩
      (by decide) (by decide) hcar9 rfl rfl
      (by show _ ≥ calculate_distance (0:ℝ) (4 * L9 / 5) 0 L9; rw [dist9_3]; norm_num)
    rw [h]
    simp only [s9_2, s9_3, p9_3, env9, List.length_cons, List.length_nil]
    rw [if_neg (show ¬ (0 + 1 < 2 - 1) by decide)]
    norm_num [Prod.mk.injEq, Option.some.injEq, CarState.mk.injEq,
      PositionSample.mk.injEq, Coord.mk.injEq, Option.getD]

/-! ## Witnesses -/

theorem C1_segment_completion_witness :
    ∃ s' smp, update_car_position 1 "w1" (some ⟨[⟨0, 0⟩, ⟨0, 0⟩], 0, 0, "moving"⟩)
        ⟨some ⟨some 36⟩, none⟩ = (some s', some smp) ∧
      s'.current_index = 1 ∧ s'.coordinates = [⟨0, 0⟩, ⟨0, 0⟩] ∧
      smp.lng = 0 ∧ smp.lat = 0 :=
  C1_segment_completion 1 "w1" ⟨[⟨0, 0⟩, ⟨0, 0⟩], 0, 0, "moving"⟩
    ⟨some ⟨some 36⟩, none⟩ ⟨some 36⟩ rfl rfl (by decide)
    (by show _ ≥ calculate_distance (0:ℝ) 0 0 0
        rw [calculate_distance_self]
        norm_num [Option.getD_some])

theorem C2_interpolation_step_witness :
    ∃ s' smp, update_car_position 1 "w2" (some ⟨[⟨0, 0⟩, ⟨0, 0⟩], 0, 0, "moving"⟩)
        ⟨some ⟨some (-36)⟩, none⟩ = (some s', some smp) ∧
      s'.coordinates = [(⟨0, 0⟩ : Coord), ⟨0, 0⟩].set 0
        ⟨0 + (0 - 0) * (if calculate_distance 0 0 0 0 = 0 then 0
            else (Option.getD (some (-36)) 30 / 3.6) * 1 / calculate_distance 0 0 0 0),
         0 + (0 - 0) * (if calculate_distance 0 0 0 0 = 0 then 0
            else (Option.getD (some (-36)) 30 / 3.6) * 1 / calculate_distance 0 0 0 0)⟩ ∧
      s'.current_index = 0 ∧ s'.status = "moving" ∧
      s'.progress = (((0:ℕ) : ℝ) / (((2:ℕ) : ℝ) - 1)) * 100 ∧
      smp.heading = calculate_bearing 0 0 0 0 ∧
      (∀ j, j ≠ 0 → s'.coordinates[j]? = [(⟨0, 0⟩ : Coord), ⟨0, 0⟩][j]?) :=
  C2_interpolation_step 1 "w2" ⟨[⟨0, 0⟩, ⟨0, 0⟩], 0, 0, "moving"⟩
    ⟨some ⟨some (-36)⟩, none⟩ ⟨some (-36)⟩ rfl rfl (by decide)
    (by show _ < calculate_distance (0:ℝ) 0 0 0
        rw [calculate_distance_self]
        norm_num [Option.getD_some])

theorem C3_progress_invariants_witness :
    CarInv ⟨[⟨0, 0⟩, ⟨1, 1⟩], 0, 0, "moving"⟩ :=
  C3_progress_invariants.1 "w3" [⟨0, 0⟩, ⟨1, 1⟩] ⟨[⟨0, 0⟩, ⟨1, 1⟩], 0, 0, "moving"⟩
    ⟨"w3", 0, 0, _calculate_initial_heading [⟨0, 0⟩, ⟨1, 1⟩], 0⟩
    (add_car_ok_eq "w3" [⟨0, 0⟩, ⟨1, 1⟩] (by decide))

theorem C4_advance_noop_witness :
    update_car_position 1 "w4" (some ⟨[], 0, 100, "finished"⟩) ⟨none, none⟩ =
      (some ⟨[], 0, 100, "finished"⟩, none) :=
  (C4_advance_noop 1 "w4" ⟨none, none⟩).2 ⟨[], 0, 100, "finished"⟩ rfl

theorem C5_get_route_never_fails_witness :
    get_route none none 1 2 3 4 = syntheticRoute 1 2 3 4 :=
  (C5_get_route_never_fails none none 1 2 3 4).2.2.1 rfl rfl

theorem C6_synthetic_route_witness :
    (syntheticRoute 1 2 3 4).coordinates.getD 3 ⟨0, 0⟩ =
      ⟨1 + (((3:ℕ) : ℝ) / 10) * (3 - 1), 2 + (((3:ℕ) : ℝ) / 10) * (4 - 2)⟩ :=
  (C6_synthetic_route 1 2 3 4).2.1 3 (by norm_num)

theorem C7_register_entity_witness :
    (∃ e, add_car "w7a" [(⟨0, 0⟩ : Coord)] = Except.error e) ∧
    ((⟨[⟨0, 0⟩, ⟨2, 3⟩], 0, 0, "moving"⟩ : CarState).coordinates = [⟨0, 0⟩, ⟨2, 3⟩] ∧
     (⟨[⟨0, 0⟩, ⟨2, 3⟩], 0, 0, "moving"⟩ : CarState).current_index = 0 ∧
     (⟨[⟨0, 0⟩, ⟨2, 3⟩], 0, 0, "moving"⟩ : CarState).progress = 0 ∧
     (⟨[⟨0, 0⟩, ⟨2, 3⟩], 0, 0, "moving"⟩ : CarState).status = "moving" ∧
     (⟨"w7", 0, 0, _calculate_initial_heading [⟨0, 0⟩, ⟨2, 3⟩], 0⟩ : PositionSample) =
       ⟨"w7", 0, 0, calculate_bearing 0 0 2 3, 0⟩) :=
  ⟨(C7_register_entity "w7a" [(⟨0, 0⟩ : Coord)]).1.mpr (by decide),
   (C7_register_entity "w7" [⟨0, 0⟩, ⟨2, 3⟩]).2
     ⟨[⟨0, 0⟩, ⟨2, 3⟩], 0, 0, "moving"⟩
     ⟨"w7", 0, 0, _calculate_initial_heading [⟨0, 0⟩, ⟨2, 3⟩], 0⟩
     (add_car_ok_eq "w7" [⟨0, 0⟩, ⟨2, 3⟩] (by decide))⟩

end AtlasRide
